import Mathlib

/-!
Shallow embedding of the qdrant-mcp gateway (src/mcp_handler.py, src/server.py,
src/mcp_server.py, src/config.py) and proofs about its specified behavior.

Modelling conventions:
* The embedding model, the tokenizer, uuid generation and the qdrant client are
  external collaborators; they are passed in as an `Env` of abstract functions
  and failure flags.  Vectors and similarity scores are opaque to the gateway
  (it only forwards them), so they are represented by `List Int` and `Int`.
* The qdrant store is modelled as a deterministic `World`: `get_collection`
  raises exactly when the collection is absent, `create_collection` raises
  exactly when it is present, `upsert` raises exactly when `Env.upsertFails`
  (and appends the points to `World.stored` otherwise), `search` raises exactly
  when `Env.searchFails` and otherwise returns `Env.searchResult`.
* Python dicts are association lists with insertion-order update semantics
  (`dictSet` overwrites the first occurrence in place, else appends).
* Every handler returns its result together with the final `World` and the
  ordered list of adapter calls it issued (a call that raises is still listed:
  the adapter received it).
-/

namespace QdrantMcp

/-- Similarity scores / thresholds are never computed with by the gateway;
they are an opaque scalar type. -/
abbrev SVal := Int

/-- Embedding vectors are opaque to the gateway (it only calls `.tolist()` and
forwards them). -/
abbrev Vec := List Int

/-- JSON-ish payload / metadata values. -/
inductive Val where
  | str (s : String)
  | int (n : Int)
  | bool (b : Bool)
  | null
deriving DecidableEq, Repr

/-- A Python dict, as an insertion-ordered association list. -/
abbrev Dict := List (String × Val)

/-- `d[k] = v` with Python dict semantics: overwrite the first binding of `k`
in place, otherwise append at the end. -/
def dictSet (d : Dict) (k : String) (v : Val) : Dict :=
  match d with
  | [] => [(k, v)]
  | (k1, v1) :: rest => if k1 = k then (k, v) :: rest else (k1, v1) :: dictSet rest k v

/-- `d.get(k)`. -/
def dictGet (d : Dict) (k : String) : Option Val :=
  match d with
  | [] => none
  | (k1, v1) :: rest => if k1 = k then some v1 else dictGet rest k

/-- Sequentially insert all of `kvs` into `d` (the semantics of `{**d, **kvs}`
style dict construction, later keys overriding earlier ones). -/
def setAll (d : Dict) (kvs : Dict) : Dict :=
  kvs.foldl (fun a p => dictSet a p.1 p.2) d

/-- Distance metrics supported by the store (qdrant_client models.Distance). -/
inductive Distance where
  | cosine
  | euclid
  | dot
deriving DecidableEq, Repr

/-- `distance_map.get(metric, models.Distance.COSINE)` as used in
src/server.py (ensure_default_collection and create_collection). -/
def distance_map (s : String) : Distance :=
  if s = "cosine" then Distance.cosine
  else if s = "euclidean" then Distance.euclid
  else if s = "dot" then Distance.dot
  else Distance.cosine

/-- A point as handed to the store adapter (models.PointStruct).  The source
passes `point.vector` straight through, so the vector may be absent here; the
external client library is where a `None` vector would be rejected. -/
structure QPoint where
  id : String
  vector : Option Vec
  payload : Dict
deriving DecidableEq, Repr

/-- One call received by an external adapter (embedder or qdrant client). -/
inductive AdapterCall where
  | embed (text : String)
  | getCollection (name : String)
  | createCollection (name : String) (size : Int) (distance : Distance)
  | upsert (collection : String) (points : List QPoint)
  | search (collection : String) (vector : Vec) (lim : Int) (scoreThreshold : SVal)
  | getCollections
deriving DecidableEq, Repr

def isCreateCall : AdapterCall → Bool
  | AdapterCall.createCollection _ _ _ => true
  | _ => false

def isUpsertCall : AdapterCall → Bool
  | AdapterCall.upsert _ _ => true
  | _ => false

/-- The external vector database, reduced to what the gateway observes. -/
structure World where
  collections : List String
  stored : List (String × QPoint)
deriving DecidableEq, Repr

/-- A raw search hit returned by the qdrant client (`result.payload` may be
`None`). -/
structure SearchHitRaw where
  id : String
  score : SVal
  payload : Option Dict
deriving DecidableEq, Repr

/-- External collaborators and their (externally determined) behavior. -/
structure Env where
  embedFn : String → Option Vec
  countTokens : String → Nat
  freshIds : Nat → String
  upsertFails : Bool
  searchFails : Bool
  listFails : Bool
  searchResult : List SearchHitRaw
  embedErrMsg : String
  storeErrMsg : String
  searchErrMsg : String
  listErrMsg : String
  collectionExistsMsg : String
  showVal : Val → String
  dumpJson : Dict → String
  formatScore : SVal → String

/-- The slice of the resolved configuration the gateway reads
(src/config.py defaults, vector.* and mcp.* sections). -/
structure Cfg where
  collection_name : String
  vector_size : Int
  distance_metric : String
  top_k : Int
  min_score : SVal
  server_name : String
  server_version : String
  protocol_version : String
deriving DecidableEq, Repr

/-- The defaults from src/config.py (min_score 0.22 is an opaque scalar,
represented by an arbitrary `SVal`). -/
def defaultCfg : Cfg :=
  ⟨"claude_vectors", 384, "cosine", 10, 22, "qdrant-mcp", "1.0.0", "2024-11-05"⟩

/-- The duck-typed `arguments` dict of an MCP tool call, restricted to the
keys the handlers read. -/
structure ToolArgs where
  content : Option String
  metadata : Option Dict
  collection : Option String
  query : Option String
  limit : Option Int
  score_threshold : Option SVal
  name : Option String
  vector_size : Option Int
deriving DecidableEq, Repr

def emptyArgs : ToolArgs := ⟨none, none, none, none, none, none, none, none⟩

/-- The payload built by `_handle_store`:
`payload = {"content": content, **metadata}` (src/mcp_handler.py line 172). -/
def mcpStorePayload (content : String) (metadata : Dict) : Dict :=
  setAll [("content", Val.str content)] metadata

/-- `MCPHandler._handle_store` (src/mcp_handler.py lines 154-202). -/
def handle_store (cfg : Cfg) (env : Env) (w : World) (args : ToolArgs) :
    String × World × List AdapterCall :=
  let content := args.content.getD ""
  let metadata := args.metadata.getD []
  let collection := args.collection.getD cfg.collection_name
  if content = "" then
    ("Error: No content provided", w, [])
  else
    match env.embedFn content with
    | none =>
        ("Failed to store content: " ++ env.embedErrMsg, w, [AdapterCall.embed content])
    | some vec =>
        let pointId := env.freshIds 0
        let payload := mcpStorePayload content metadata
        let pt : QPoint := ⟨pointId, some vec, payload⟩
        if collection ∈ w.collections then
          if env.upsertFails then
            ("Failed to store content: " ++ env.storeErrMsg, w,
             [AdapterCall.embed content, AdapterCall.getCollection collection,
              AdapterCall.upsert collection [pt]])
          else
            ("Successfully stored content with ID: " ++ pointId ++
               " in collection: " ++ collection,
             ⟨w.collections, w.stored ++ [(collection, pt)]⟩,
             [AdapterCall.embed content, AdapterCall.getCollection collection,
              AdapterCall.upsert collection [pt]])
        else
          if env.upsertFails then
            ("Failed to store content: " ++ env.storeErrMsg,
             ⟨w.collections ++ [collection], w.stored⟩,
             [AdapterCall.embed content, AdapterCall.getCollection collection,
              AdapterCall.createCollection collection cfg.vector_size Distance.cosine,
              AdapterCall.upsert collection [pt]])
          else
            ("Successfully stored content with ID: " ++ pointId ++
               " in collection: " ++ collection,
             ⟨w.collections ++ [collection], w.stored ++ [(collection, pt)]⟩,
             [AdapterCall.embed content, AdapterCall.getCollection collection,
              AdapterCall.createCollection collection cfg.vector_size Distance.cosine,
              AdapterCall.upsert collection [pt]])

/-- Python `str(x)` on an optional string (`None` prints as "None"),
for f-string interpolation of `.get(...)` results. -/
def pyShowOptStr : Option String → String
  | none => "None"
  | some s => s

/-- `enumerate(results, 1)`. -/
def enumerateFrom (n : Nat) : List α → List (Nat × α)
  | [] => []
  | a :: as => (n, a) :: enumerateFrom (n + 1) as

/-- Formatting of one search result inside `_handle_find`
(src/mcp_handler.py lines 236-245). -/
def formatFindHit (env : Env) (i : Nat) (r : SearchHitRaw) : String :=
  let payload := r.payload.getD []
  let contentText :=
    match dictGet payload "content" with
    | some (Val.str s) => s
    | some v => env.showVal v
    | none => ""
  let metadata := payload.filter (fun p => p.1 ≠ "content")
  let base := "Result " ++ toString i ++ " (score: " ++ env.formatScore r.score ++
    "):\n" ++ contentText
  if metadata = [] then base
  else base ++ "\nMetadata: " ++ env.dumpJson metadata

/-- The "Found N results" text of `_handle_find`. -/
def formatFindText (env : Env) (results : List SearchHitRaw) : String :=
  "Found " ++ toString results.length ++ " results:\n\n" ++
    String.intercalate "\n\n---\n\n"
      ((enumerateFrom 1 results).map (fun p => formatFindHit env p.1 p.2))

/-- `MCPHandler._handle_find` (src/mcp_handler.py lines 204-255). -/
def handle_find (cfg : Cfg) (env : Env) (w : World) (args : ToolArgs) :
    String × World × List AdapterCall :=
  let query := args.query.getD ""
  let lim := args.limit.getD cfg.top_k
  let thr := args.score_threshold.getD cfg.min_score
  let collection := args.collection.getD cfg.collection_name
  if query = "" then
    ("Error: No query provided", w, [])
  else
    match env.embedFn query with
    | none =>
        ("Failed to search: " ++ env.embedErrMsg, w, [AdapterCall.embed query])
    | some qv =>
        if env.searchFails then
          ("Failed to search: " ++ env.searchErrMsg, w,
           [AdapterCall.embed query, AdapterCall.search collection qv lim thr])
        else if env.searchResult = [] then
          ("No relevant results found", w,
           [AdapterCall.embed query, AdapterCall.search collection qv lim thr])
        else
          (formatFindText env env.searchResult, w,
           [AdapterCall.embed query, AdapterCall.search collection qv lim thr])

/-- `MCPHandler._handle_list_collections` (src/mcp_handler.py lines 257-276). -/
def handle_list_collections (env : Env) (w : World) :
    String × World × List AdapterCall :=
  if env.listFails then
    ("Failed to list collections: " ++ env.listErrMsg, w, [AdapterCall.getCollections])
  else if w.collections = [] then
    ("No collections found", w, [AdapterCall.getCollections])
  else
    ("Collections:\n" ++ String.intercalate "\n" (w.collections.map (fun c => "- " ++ c)),
     w, [AdapterCall.getCollections])

/-- `MCPHandler._handle_create_collection` (src/mcp_handler.py lines 278-306).
Note the hardcoded `models.Distance.COSINE`. -/
def handle_create_collection (cfg : Cfg) (env : Env) (w : World) (args : ToolArgs) :
    String × World × List AdapterCall :=
  let nm := args.name.getD ""
  let vsize := args.vector_size.getD cfg.vector_size
  if nm = "" then
    ("Error: No collection name provided", w, [])
  else if nm ∈ w.collections then
    ("Failed to create collection: " ++ env.collectionExistsMsg, w,
     [AdapterCall.createCollection nm vsize Distance.cosine])
  else
    ("Successfully created collection \x27" ++ nm ++ "\x27 with vector size " ++
       toString vsize,
     ⟨w.collections ++ [nm], w.stored⟩,
     [AdapterCall.createCollection nm vsize Distance.cosine])

/-! ## REST front-end (src/server.py) -/

/-- A point of the REST upsert body (pydantic `VectorPoint`): `id` is a
required string, `vector`/`content` optional, `payload` defaults to `{}`. -/
structure VectorPoint where
  id : String
  vector : Option Vec
  content : Option String
  payload : Dict
deriving DecidableEq, Repr

/-- Pydantic `VectorSearchRequest` after its `__init__` resolved the
config defaults. -/
structure VectorSearchRequest where
  query : String
  collection : String
  limit : Int
  score_threshold : SVal
deriving DecidableEq, Repr

/-- `VectorSearchRequest.__init__` (src/server.py lines 75-89): absent fields
are filled from the config at construction time. -/
def mkVectorSearchRequest (cfg : Cfg) (query : String) (collection : Option String)
    (lim : Option Int) (thr : Option SVal) : VectorSearchRequest :=
  ⟨query, collection.getD cfg.collection_name, lim.getD cfg.top_k, thr.getD cfg.min_score⟩

/-- Pydantic `VectorUpsertRequest` after default resolution. -/
structure VectorUpsertRequest where
  collection : String
  points : List VectorPoint
deriving DecidableEq, Repr

/-- `VectorUpsertRequest.__init__` (src/server.py lines 92-99). -/
def mkVectorUpsertRequest (cfg : Cfg) (collection : Option String)
    (points : List VectorPoint) : VectorUpsertRequest :=
  ⟨collection.getD cfg.collection_name, points⟩

/-- `if point.content and not point.vector:` (src/server.py line 235) —
Python truthiness: non-empty content and a falsy (absent or empty) vector. -/
def needsEmbedding (p : VectorPoint) : Bool :=
  (p.content.getD "" != "") && (p.vector.getD [] == [])

/-- The payload of the qdrant point built for one REST point
(src/server.py lines 249-252): if content is truthy, set
`payload["content"]` and `payload["tokens"] = count_tokens(content)`. -/
def restPointPayload (env : Env) (p : VectorPoint) : Dict :=
  match p.content with
  | some c =>
      if c = "" then p.payload
      else dictSet (dictSet p.payload "content" (Val.str c)) "tokens"
        (Val.int (Int.ofNat (env.countTokens c)))
  | none => p.payload

/-- The per-point loop of `upsert_vectors` (src/server.py lines 232-254):
embed when needed (an embedding failure aborts the whole loop), substitute a
fresh uuid for a falsy id, and build the qdrant point.  Returns the points
built so far or the first error, together with the embed calls issued. -/
def buildPoints (env : Env) : Nat → List VectorPoint →
    Except String (List QPoint) × List AdapterCall
  | _, [] => (Except.ok [], [])
  | i, p :: rest =>
      let c := p.content.getD ""
      let pid := if p.id = "" then env.freshIds i else p.id
      if needsEmbedding p then
        match env.embedFn c with
        | none => (Except.error env.embedErrMsg, [AdapterCall.embed c])
        | some v =>
            let qp : QPoint := ⟨pid, some v, restPointPayload env p⟩
            match buildPoints env (i + 1) rest with
            | (Except.error e, tr) => (Except.error e, AdapterCall.embed c :: tr)
            | (Except.ok qs, tr) => (Except.ok (qp :: qs), AdapterCall.embed c :: tr)
      else
        let qp : QPoint := ⟨pid, p.vector, restPointPayload env p⟩
        match buildPoints env (i + 1) rest with
        | (Except.error e, tr) => (Except.error e, tr)
        | (Except.ok qs, tr) => (Except.ok (qp :: qs), tr)

/-- The JSON body returned by a successful `POST /vectors/upsert`. -/
structure UpsertResponse where
  status : String
  upserted : Nat
  ids : List String
deriving DecidableEq, Repr

/-- `upsert_vectors` (src/server.py lines 228-269).  REST errors are
`Except.error (status, detail)`. -/
def upsert_vectors (env : Env) (w : World) (req : VectorUpsertRequest) :
    Except (Int × String) UpsertResponse × World × List AdapterCall :=
  match buildPoints env 0 req.points with
  | (Except.error e, tr) =>
      (Except.error (500, "Failed to upsert vectors: " ++ e), w, tr)
  | (Except.ok qpts, tr) =>
      if env.upsertFails then
        (Except.error (500, "Failed to upsert vectors: " ++ env.storeErrMsg), w,
         tr ++ [AdapterCall.upsert req.collection qpts])
      else
        (Except.ok ⟨"success", qpts.length, qpts.map (fun q => q.id)⟩,
         ⟨w.collections, w.stored ++ qpts.map (fun q => (req.collection, q))⟩,
         tr ++ [AdapterCall.upsert req.collection qpts])

/-- The JSON body returned by a successful `POST /vectors/search`. -/
structure SearchResponse where
  query : String
  hits : List SearchHitRaw
  total : Nat
deriving DecidableEq, Repr

/-- `search_vectors` (src/server.py lines 272-301).  Note: the query is
embedded unconditionally — there is no emptiness check on this path. -/
def search_vectors (env : Env) (w : World) (req : VectorSearchRequest) :
    Except (Int × String) SearchResponse × World × List AdapterCall :=
  match env.embedFn req.query with
  | none =>
      (Except.error (500, "Failed to search vectors: " ++ env.embedErrMsg), w,
       [AdapterCall.embed req.query])
  | some qv =>
      if env.searchFails then
        (Except.error (500, "Failed to search vectors: " ++ env.searchErrMsg), w,
         [AdapterCall.embed req.query,
          AdapterCall.search req.collection qv req.limit req.score_threshold])
      else
        (Except.ok ⟨req.query, env.searchResult, env.searchResult.length⟩, w,
         [AdapterCall.embed req.query,
          AdapterCall.search req.collection qv req.limit req.score_threshold])

/-- `ensure_default_collection` (src/server.py lines 145-167): get, and on
failure create with the config-driven distance mapping. -/
def ensure_default_collection (cfg : Cfg) (w : World) : World × List AdapterCall :=
  if cfg.collection_name ∈ w.collections then
    (w, [AdapterCall.getCollection cfg.collection_name])
  else
    (⟨w.collections ++ [cfg.collection_name], w.stored⟩,
     [AdapterCall.getCollection cfg.collection_name,
      AdapterCall.createCollection cfg.collection_name cfg.vector_size
        (distance_map cfg.distance_metric)])

/-! ## MCP HTTP front-end (src/mcp_server.py) -/

/-- A JSON-RPC id (string or number). -/
inductive RpcId where
  | str (s : String)
  | num (n : Int)
deriving DecidableEq, Repr

/-- The `params` object of a JSON-RPC request, restricted to the keys read
by the server (`name`, `arguments` for tools/call). -/
structure RpcParams where
  name : Option String
  arguments : Option ToolArgs
deriving DecidableEq, Repr

/-- A parsed JSON-RPC request body.  The `jsonrpc` field is part of the wire
format; the source never reads it. -/
structure RpcRequest where
  jsonrpc : Option String
  method : Option String
  params : Option RpcParams
  id : Option RpcId
deriving DecidableEq, Repr

/-- The `result` member of a JSON-RPC response produced by the server. -/
inductive RpcResult where
  | initialized (protocolVersion serverName serverVersion : String)
  | toolsList (toolNames : List String)
  | toolContent (texts : List String)
deriving DecidableEq, Repr

/-- The JSON body of the HTTP response: either a result object or an error
object, each carrying the echoed id.  Every branch of the source emits such a
body (with HTTP status 200). -/
inductive RpcBody where
  | result (r : RpcResult) (id : Option RpcId)
  | rpcError (code : Int) (message : String) (id : Option RpcId)
deriving DecidableEq, Repr

/-- `handle_mcp_request` in src/mcp_server.py (lines 46-246).  `none` as the
body models a JSON parse failure of the raw request body. -/
def handle_mcp_request (cfg : Cfg) (env : Env) (w : World) (body : Option RpcRequest) :
    RpcBody × World × List AdapterCall :=
  match body with
  | none => (RpcBody.rpcError (-32700) "Parse error" none, w, [])
  | some req =>
      let requestId := req.id
      match req.method with
      | some "initialize" =>
          (RpcBody.result
            (RpcResult.initialized cfg.protocol_version cfg.server_name cfg.server_version)
            requestId, w, [])
      | some "tools/list" =>
          (RpcBody.result
            (RpcResult.toolsList
              ["qdrant-store", "qdrant-find", "qdrant-list-collections",
               "qdrant-create-collection"]) requestId, w, [])
      | some "tools/call" =>
          let params := req.params.getD ⟨none, none⟩
          let args := params.arguments.getD emptyArgs
          match params.name with
          | some "qdrant-store" =>
              let r := handle_store cfg env w args
              (RpcBody.result (RpcResult.toolContent [r.1]) requestId, r.2.1, r.2.2)
          | some "qdrant-find" =>
              let r := handle_find cfg env w args
              (RpcBody.result (RpcResult.toolContent [r.1]) requestId, r.2.1, r.2.2)
          | some "qdrant-list-collections" =>
              let r := handle_list_collections env w
              (RpcBody.result (RpcResult.toolContent [r.1]) requestId, r.2.1, r.2.2)
          | some "qdrant-create-collection" =>
              let r := handle_create_collection cfg env w args
              (RpcBody.result (RpcResult.toolContent [r.1]) requestId, r.2.1, r.2.2)
          | other =>
              (RpcBody.result
                (RpcResult.toolContent ["Unknown tool: " ++ pyShowOptStr other])
                requestId, w, [])
      | m =>
          (RpcBody.rpcError (-32601) ("Method not found: " ++ pyShowOptStr m)
            requestId, w, [])

/-! ## Concrete sample data used by counterexamples and witnesses -/

/-- A concrete environment: embedding always succeeds, no external failures. -/
def env0 : Env :=
  ⟨fun _ => some [0], fun s => s.length, fun i => "uuid-" ++ toString i,
   false, false, false, [], "embed down", "store down", "search down",
   "list down", "collection exists", fun _ => "", fun _ => "", fun _ => ""⟩

/-- Like `env0` but the store write fails. -/
def envUpsertFail : Env :=
  ⟨fun _ => some [0], fun s => s.length, fun i => "uuid-" ++ toString i,
   true, false, false, [], "embed down", "store down", "search down",
   "list down", "collection exists", fun _ => "", fun _ => "", fun _ => ""⟩

/-- An empty world: no collections, nothing stored. -/
def w0 : World := ⟨[], []⟩

/-- The default configuration with `distance_metric` set to "euclidean". -/
def cfgEuclid : Cfg :=
  ⟨"claude_vectors", 384, "euclidean", 10, 22, "qdrant-mcp", "1.0.0", "2024-11-05"⟩

/-- MCP store arguments: content only. -/
def argsStoreHello : ToolArgs :=
  ⟨some "hello", none, none, none, none, none, none, none⟩

/-- MCP store arguments: content "hi" with a metadata mapping. -/
def argsStoreMeta : ToolArgs :=
  ⟨some "hi", some [("source", Val.str "test")], none, none, none, none, none, none⟩

/-- MCP store arguments whose metadata itself binds "content". -/
def argsStoreContentMeta : ToolArgs :=
  ⟨some "hi", some [("content", Val.str "meta"), ("source", Val.str "test")],
   none, none, none, none, none, none⟩

/-- MCP create-collection arguments. -/
def argsCreateNew : ToolArgs :=
  ⟨none, none, none, none, none, none, some "new_collection", some 512⟩

/-- A REST point with neither content nor vector (only a payload). -/
def pointNoContent : VectorPoint :=
  ⟨"550e8400-e29b-41d4-a716-446655440000", none, none, [("role", Val.str "user")]⟩

/-- A REST upsert request carrying only `pointNoContent`. -/
def reqNoContent : VectorUpsertRequest := ⟨"claude_vectors", [pointNoContent]⟩

/-- A REST point whose id is not a UUID. -/
def pointBadId : VectorPoint :=
  ⟨"invalid-id-format", none, some "Test content", []⟩

/-- A REST upsert request carrying only `pointBadId`. -/
def reqBadId : VectorUpsertRequest := ⟨"claude_vectors", [pointBadId]⟩

/-- A JSON-RPC notification: no `id` member. -/
def rpcNotification : RpcRequest :=
  ⟨some "2.0", some "notifications/initialized", some ⟨none, none⟩, none⟩

/-- An `initialize` request with id "8" and the given `jsonrpc` member. -/
def rpcInitialize (j : Option String) : RpcRequest :=
  ⟨j, some "initialize", some ⟨none, none⟩, some (RpcId.str "8")⟩

/-! ## Dict lemmas -/

theorem dictGet_dictSet_self (d : Dict) (k : String) (v : Val) :
    dictGet (dictSet d k v) k = some v := by
  induction d with
  | nil => simp [dictSet, dictGet]
  | cons p rest ih =>
      obtain ⟨k1, v1⟩ := p
      by_cases h : k1 = k
      · simp [dictSet, dictGet, h]
      · simp [dictSet, dictGet, h, ih]

theorem dictGet_dictSet_ne (d : Dict) (k k1 : String) (v : Val) (h : k1 ≠ k) :
    dictGet (dictSet d k1 v) k = dictGet d k := by
  induction d with
  | nil => simp [dictSet, dictGet, h]
  | cons p rest ih =>
      obtain ⟨a, b⟩ := p
      by_cases ha : a = k1
      · subst ha
        simp [dictSet, dictGet, h]
      · simp only [dictSet, dictGet, if_neg ha]
        by_cases hk : a = k
        · simp [dictGet, hk]
        · simp [dictGet, hk, ih]

theorem dictGet_setAll_not_mem : ∀ (kvs d : Dict) (k : String),
    k ∉ kvs.map Prod.fst → dictGet (setAll d kvs) k = dictGet d k := by
  intro kvs
  induction kvs with
  | nil => intro d k _; simp [setAll]
  | cons p rest ih =>
      intro d k h
      obtain ⟨a, b⟩ := p
      simp only [List.map_cons, List.mem_cons, not_or] at h
      have h1 : a ≠ k := fun e => h.1 e.symm
      have : setAll d ((a, b) :: rest) = setAll (dictSet d a b) rest := by
        simp [setAll]
      rw [this, ih (dictSet d a b) k h.2, dictGet_dictSet_ne d k a b h1]

theorem dictGet_setAll_mem : ∀ (kvs d : Dict) (k : String) (v : Val),
    (kvs.map Prod.fst).Nodup → (k, v) ∈ kvs →
    dictGet (setAll d kvs) k = some v := by
  intro kvs
  induction kvs with
  | nil => intro d k v _ hm; simp at hm
  | cons p rest ih =>
      intro d k v hnd hm
      obtain ⟨a, b⟩ := p
      have hs : setAll d ((a, b) :: rest) = setAll (dictSet d a b) rest := by
        simp [setAll]
      simp only [List.map_cons, List.nodup_cons] at hnd
      rcases List.mem_cons.mp hm with heq | hmem
      · have hk : k = a := congrArg Prod.fst heq
        have hv : v = b := congrArg Prod.snd heq
        subst hk; subst hv
        rw [hs, dictGet_setAll_not_mem rest (dictSet d k v) k hnd.1,
          dictGet_dictSet_self]
      · rw [hs]
        exact ih (dictSet d a b) k v hnd.2 hmem

/-! ## Handler characterization lemmas -/

theorem handle_find_empty (cfg : Cfg) (env : Env) (w : World) (args : ToolArgs)
    (hq : args.query.getD "" = "") :
    handle_find cfg env w args = ("Error: No query provided", w, []) := by
  simp only [handle_find]
  rw [hq]
  simp

theorem search_vectors_calls_embedder (env : Env) (w : World)
    (req : VectorSearchRequest) :
    AdapterCall.embed req.query ∈ (search_vectors env w req).2.2 := by
  unfold search_vectors
  cases h : env.embedFn req.query with
  | none => simp
  | some qv => cases hb : env.searchFails <;> simp [hb]

theorem handle_store_new (cfg : Cfg) (env : Env) (w : World) (args : ToolArgs)
    {content : String} {v : Vec}
    (hc : args.content.getD "" = content) (hne : content ≠ "")
    (hembed : env.embedFn content = some v) (hup : env.upsertFails = false)
    (hcoll : args.collection.getD cfg.collection_name ∉ w.collections) :
    handle_store cfg env w args =
      ("Successfully stored content with ID: " ++ env.freshIds 0 ++
         " in collection: " ++ args.collection.getD cfg.collection_name,
       ⟨w.collections ++ [args.collection.getD cfg.collection_name],
        w.stored ++ [(args.collection.getD cfg.collection_name,
          ⟨env.freshIds 0, some v, mcpStorePayload content (args.metadata.getD [])⟩)]⟩,
       [AdapterCall.embed content,
        AdapterCall.getCollection (args.collection.getD cfg.collection_name),
        AdapterCall.createCollection (args.collection.getD cfg.collection_name)
          cfg.vector_size Distance.cosine,
        AdapterCall.upsert (args.collection.getD cfg.collection_name)
          [⟨env.freshIds 0, some v, mcpStorePayload content (args.metadata.getD [])⟩]]) := by
  simp only [handle_store]
  rw [hc, hembed]
  simp [hne, hcoll, hup]

theorem handle_store_existing (cfg : Cfg) (env : Env) (w : World) (args : ToolArgs)
    {content : String} {v : Vec}
    (hc : args.content.getD "" = content) (hne : content ≠ "")
    (hembed : env.embedFn content = some v) (hup : env.upsertFails = false)
    (hcoll : args.collection.getD cfg.collection_name ∈ w.collections) :
    handle_store cfg env w args =
      ("Successfully stored content with ID: " ++ env.freshIds 0 ++
         " in collection: " ++ args.collection.getD cfg.collection_name,
       ⟨w.collections,
        w.stored ++ [(args.collection.getD cfg.collection_name,
          ⟨env.freshIds 0, some v, mcpStorePayload content (args.metadata.getD [])⟩)]⟩,
       [AdapterCall.embed content,
        AdapterCall.getCollection (args.collection.getD cfg.collection_name),
        AdapterCall.upsert (args.collection.getD cfg.collection_name)
          [⟨env.freshIds 0, some v, mcpStorePayload content (args.metadata.getD [])⟩]]) := by
  simp only [handle_store]
  rw [hc, hembed]
  simp [hne, hcoll, hup]

theorem handle_store_creates (cfg : Cfg) (env : Env) (w : World) (args : ToolArgs)
    {content : String} {v : Vec}
    (hc : args.content.getD "" = content) (hne : content ≠ "")
    (hembed : env.embedFn content = some v)
    (hcoll : args.collection.getD cfg.collection_name ∉ w.collections) :
    AdapterCall.createCollection (args.collection.getD cfg.collection_name)
      cfg.vector_size Distance.cosine ∈ (handle_store cfg env w args).2.2 := by
  simp only [handle_store]
  rw [hc, hembed]
  simp only [if_neg hne]
  cases hu : env.upsertFails <;> simp [hne, hcoll, hu]

theorem handle_create_new (cfg : Cfg) (env : Env) (w : World) (args : ToolArgs)
    {nm : String}
    (hn : args.name.getD "" = nm) (hne : nm ≠ "")
    (hcoll : nm ∉ w.collections) :
    handle_create_collection cfg env w args =
      ("Successfully created collection \x27" ++ nm ++ "\x27 with vector size " ++
         toString (args.vector_size.getD cfg.vector_size),
       ⟨w.collections ++ [nm], w.stored⟩,
       [AdapterCall.createCollection nm (args.vector_size.getD cfg.vector_size)
          Distance.cosine]) := by
  simp only [handle_create_collection]
  rw [hn]
  simp [hne, hcoll]

theorem handle_create_existing (cfg : Cfg) (env : Env) (w : World) (args : ToolArgs)
    {nm : String}
    (hn : args.name.getD "" = nm) (hne : nm ≠ "")
    (hcoll : nm ∈ w.collections) :
    handle_create_collection cfg env w args =
      ("Failed to create collection: " ++ env.collectionExistsMsg, w,
       [AdapterCall.createCollection nm (args.vector_size.getD cfg.vector_size)
          Distance.cosine]) := by
  simp only [handle_create_collection]
  rw [hn]
  simp [hne, hcoll]

theorem buildPoints_no_upsert (env : Env) :
    ∀ (pts : List VectorPoint) (i : Nat),
      ((buildPoints env i pts).2).countP isUpsertCall = 0 := by
  intro pts
  induction pts with
  | nil => intro i; simp [buildPoints]
  | cons p rest ih =>
      intro i
      simp only [buildPoints]
      cases hne : needsEmbedding p
      · rcases hb : buildPoints env (i + 1) rest with ⟨e, tr⟩
        have h2 := ih (i + 1)
        rw [hb] at h2
        cases e <;> simp [hb, h2, isUpsertCall]
      · cases he : env.embedFn (p.content.getD "")
        · simp [he, isUpsertCall]
        · rcases hb : buildPoints env (i + 1) rest with ⟨e, tr⟩
          have h2 := ih (i + 1)
          rw [hb] at h2
          cases e <;> simp [he, hb, h2, isUpsertCall]

theorem buildPoints_ok_length (env : Env) :
    ∀ (pts : List VectorPoint) (i : Nat) (qs : List QPoint) (tr : List AdapterCall),
      buildPoints env i pts = (Except.ok qs, tr) → qs.length = pts.length := by
  intro pts
  induction pts with
  | nil =>
      intro i qs tr h
      simp only [buildPoints, Prod.mk.injEq, Except.ok.injEq] at h
      simp [← h.1]
  | cons p rest ih =>
      intro i qs tr h
      simp only [buildPoints] at h
      split at h
      · cases he : env.embedFn (p.content.getD "") <;> rw [he] at h
        · simp at h
        · rcases hb : buildPoints env (i + 1) rest with ⟨e, tr2⟩
          rw [hb] at h
          cases e with
          | error msg => simp at h
          | ok qs2 =>
              simp only [Prod.mk.injEq, Except.ok.injEq] at h
              have := ih (i + 1) qs2 tr2 hb
              simp [← h.1, this]
      · rcases hb : buildPoints env (i + 1) rest with ⟨e, tr2⟩
        rw [hb] at h
        cases e with
        | error msg => simp at h
        | ok qs2 =>
            simp only [Prod.mk.injEq, Except.ok.injEq] at h
            have := ih (i + 1) qs2 tr2 hb
            simp [← h.1, this]

/-! ## Claims -/

/-- C1, counterexample: on the REST front-end, `POST /vectors/search` with an
empty query does NOT fail validation before any network call — the embedding
adapter receives the call `embed ""`. -/
theorem claim_C1_counterexample :
    AdapterCall.embed "" ∈
      (search_vectors env0 w0 (mkVectorSearchRequest defaultCfg "" none none none)).2.2 ∧
    (search_vectors env0 w0 (mkVectorSearchRequest defaultCfg "" none none none)).2.2 ≠
      [] := by
  decide

/-- C1 (amended): the MCP tool qdrant-find fails with "Error: No query
provided" before any adapter call when the query is absent or empty (zero
adapter calls); the REST `POST /vectors/search` path performs no such
validation and always sends the (possibly empty) query to the embedding
adapter. -/
theorem claim_C1_amended (cfg : Cfg) (env : Env) (w : World) (args : ToolArgs)
    (req : VectorSearchRequest)
    (hq : args.query.getD "" = "") (hr : req.query = "") :
    handle_find cfg env w args = ("Error: No query provided", w, []) ∧
    AdapterCall.embed "" ∈ (search_vectors env w req).2.2 := by
  refine ⟨handle_find_empty cfg env w args hq, ?_⟩
  have h := search_vectors_calls_embedder env w req
  rwa [hr] at h

/-- Witness for C1 (amended), at the empty tool arguments and an empty REST
query. -/
theorem claim_C1_witness :
    handle_find defaultCfg env0 w0 emptyArgs = ("Error: No query provided", w0, []) ∧
    AdapterCall.embed "" ∈
      (search_vectors env0 w0 (mkVectorSearchRequest defaultCfg "" none none none)).2.2 :=
  claim_C1_amended defaultCfg env0 w0 emptyArgs
    (mkVectorSearchRequest defaultCfg "" none none none) (by rfl) (by rfl)

/-- C2, code behavior at the failing input: a REST upsert of a point with
neither `content` nor `vector` is not rejected with any validation error —
the vector-less, content-less point is handed straight to the store adapter
and the call reports success. -/
theorem claim_C2_code :
    upsert_vectors env0 w0 reqNoContent =
      (Except.ok ⟨"success", 1, ["550e8400-e29b-41d4-a716-446655440000"]⟩,
       ⟨[], [("claude_vectors",
          ⟨"550e8400-e29b-41d4-a716-446655440000", none, [("role", Val.str "user")]⟩)]⟩,
       [AdapterCall.upsert "claude_vectors"
          [⟨"550e8400-e29b-41d4-a716-446655440000", none, [("role", Val.str "user")]⟩]]) := by
  rfl

/-- C3, counterexample: with `distance_metric = "euclidean"` in the
configuration, the MCP store path still auto-creates the collection with
cosine distance (src/mcp_handler.py line 183 hardcodes COSINE), not with the
config-driven mapping. -/
theorem claim_C3_counterexample :
    ((handle_store cfgEuclid env0 w0 argsStoreHello).2.2).filter isCreateCall =
      [AdapterCall.createCollection "claude_vectors" 384 Distance.cosine] ∧
    distance_map cfgEuclid.distance_metric = Distance.euclid ∧
    Distance.cosine ≠ Distance.euclid := by
  refine ⟨by rfl, by rfl, by decide⟩

/-- C3 (amended): a store call against a nonexistent collection auto-creates
it with `Settings.vector_size` on both paths, but only the startup/REST
ensure path maps `Settings.distance_metric` through the config-driven
distance map; the MCP store path always creates with cosine distance. -/
theorem claim_C3_amended (cfg : Cfg) (env : Env) (w : World) (args : ToolArgs)
    {content : String} {v : Vec}
    (hc : args.content.getD "" = content) (hne : content ≠ "")
    (hembed : env.embedFn content = some v)
    (hcoll : args.collection.getD cfg.collection_name ∉ w.collections)
    (hdef : cfg.collection_name ∉ w.collections) :
    AdapterCall.createCollection (args.collection.getD cfg.collection_name)
        cfg.vector_size Distance.cosine ∈ (handle_store cfg env w args).2.2 ∧
    (ensure_default_collection cfg w).2 =
      [AdapterCall.getCollection cfg.collection_name,
       AdapterCall.createCollection cfg.collection_name cfg.vector_size
         (distance_map cfg.distance_metric)] := by
  refine ⟨handle_store_creates cfg env w args hc hne hembed hcoll, ?_⟩
  simp [ensure_default_collection, hdef]

/-- Witness for C3 (amended). -/
theorem claim_C3_witness :
    AdapterCall.createCollection
        (argsStoreHello.collection.getD cfgEuclid.collection_name)
        cfgEuclid.vector_size Distance.cosine ∈
      (handle_store cfgEuclid env0 w0 argsStoreHello).2.2 ∧
    (ensure_default_collection cfgEuclid w0).2 =
      [AdapterCall.getCollection cfgEuclid.collection_name,
       AdapterCall.createCollection cfgEuclid.collection_name cfgEuclid.vector_size
         (distance_map cfgEuclid.distance_metric)] :=
  claim_C3_amended cfgEuclid env0 w0 argsStoreHello (by rfl) (by decide) (by rfl)
    (by decide) (by decide)

/-- C4, counterexample: on the MCP store path the payload written to the
store is `{"content": content, **metadata}` with NO `tokens` key — the claim
that both paths extend the metadata with a `tokens` count fails. -/
theorem claim_C4_counterexample :
    ((handle_store defaultCfg env0 w0 argsStoreMeta).2.1).stored =
      [("claude_vectors", ⟨"uuid-0", some [0],
        [("content", Val.str "hi"), ("source", Val.str "test")]⟩)] ∧
    dictGet [("content", Val.str "hi"), ("source", Val.str "test")] "tokens" = none := by
  refine ⟨by rfl, by rfl⟩

/-- C4 (amended): on the REST upsert path the payload written to the store is
the caller's payload mapping extended with `content` (the stored text) and
`tokens` (its token count); on the MCP store path the payload is
`{"content": content}` merged with the metadata (metadata winning) and no
`tokens` key is added. -/
theorem claim_C4_amended (env : Env) (p : VectorPoint) {c : String}
    (hc : p.content = some c) (hne : c ≠ "")
    (content : String) (metadata : Dict)
    (hnt : "tokens" ∉ metadata.map Prod.fst) :
    dictGet (restPointPayload env p) "content" = some (Val.str c) ∧
    dictGet (restPointPayload env p) "tokens" =
      some (Val.int (Int.ofNat (env.countTokens c))) ∧
    (∀ k, k ≠ "content" → k ≠ "tokens" →
      dictGet (restPointPayload env p) k = dictGet p.payload k) ∧
    dictGet (mcpStorePayload content metadata) "tokens" = none := by
  have hr : restPointPayload env p =
      dictSet (dictSet p.payload "content" (Val.str c)) "tokens"
        (Val.int (Int.ofNat (env.countTokens c))) := by
    simp [restPointPayload, hc, hne]
  refine ⟨?_, ?_, ?_, ?_⟩
  · rw [hr, dictGet_dictSet_ne _ _ _ _ (by decide), dictGet_dictSet_self]
  · rw [hr, dictGet_dictSet_self]
  · intro k hk1 hk2
    rw [hr, dictGet_dictSet_ne _ _ _ _ (Ne.symm hk2),
      dictGet_dictSet_ne _ _ _ _ (Ne.symm hk1)]
  · rw [mcpStorePayload, dictGet_setAll_not_mem metadata _ "tokens" hnt]
    rfl

/-- Witness for C4 (amended). -/
theorem claim_C4_witness :
    dictGet (restPointPayload env0 pointBadId) "content" =
      some (Val.str "Test content") ∧
    dictGet (restPointPayload env0 pointBadId) "tokens" =
      some (Val.int (Int.ofNat (env0.countTokens "Test content"))) ∧
    (∀ k, k ≠ "content" → k ≠ "tokens" →
      dictGet (restPointPayload env0 pointBadId) k = dictGet pointBadId.payload k) ∧
    dictGet (mcpStorePayload "hi" [("source", Val.str "test")]) "tokens" = none :=
  claim_C4_amended env0 pointBadId (by rfl) (by decide) "hi"
    [("source", Val.str "test")] (by decide)

/-- C5: store is idempotent-on-collection while explicit create is not —
storing twice against a nonexistent collection issues exactly one
create-collection call, and the second store succeeds; creating the same
collection twice succeeds on the first call and fails on the second. -/
theorem claim_C5 (cfg : Cfg) (env : Env) (w : World) (args cargs : ToolArgs)
    {content : String} {v : Vec} {nm : String}
    (hc : args.content.getD "" = content) (hne : content ≠ "")
    (hembed : env.embedFn content = some v) (hup : env.upsertFails = false)
    (hcoll : args.collection.getD cfg.collection_name ∉ w.collections)
    (hn : cargs.name.getD "" = nm) (hnne : nm ≠ "")
    (hnm : nm ∉ w.collections) :
    ((handle_store cfg env w args).2.2).countP isCreateCall = 1 ∧
    ((handle_store cfg env (handle_store cfg env w args).2.1 args).2.2).countP
      isCreateCall = 0 ∧
    (handle_store cfg env (handle_store cfg env w args).2.1 args).1 =
      "Successfully stored content with ID: " ++ env.freshIds 0 ++
        " in collection: " ++ args.collection.getD cfg.collection_name ∧
    (handle_create_collection cfg env w cargs).1 =
      "Successfully created collection \x27" ++ nm ++ "\x27 with vector size " ++
        toString (cargs.vector_size.getD cfg.vector_size) ∧
    (handle_create_collection cfg env
        (handle_create_collection cfg env w cargs).2.1 cargs).1 =
      "Failed to create collection: " ++ env.collectionExistsMsg := by
  have h1 := handle_store_new cfg env w args hc hne hembed hup hcoll
  have hmem : args.collection.getD cfg.collection_name ∈
      ((handle_store cfg env w args).2.1).collections := by
    rw [h1]; simp
  have h2 := handle_store_existing cfg env (handle_store cfg env w args).2.1 args
    hc hne hembed hup hmem
  have h3 := handle_create_new cfg env w cargs hn hnne hnm
  have hmem2 : nm ∈ ((handle_create_collection cfg env w cargs).2.1).collections := by
    rw [h3]; simp
  have h4 := handle_create_existing cfg env
    (handle_create_collection cfg env w cargs).2.1 cargs hn hnne hmem2
  refine ⟨?_, ?_, ?_, ?_, ?_⟩
  · rw [h1]; simp [isCreateCall]
  · rw [h2]; simp [isCreateCall]
  · rw [h2]
  · rw [h3]
  · rw [h4]

/-- Witness for C5. -/
theorem claim_C5_witness :
    ((handle_store defaultCfg env0 w0 argsStoreHello).2.2).countP isCreateCall = 1 ∧
    ((handle_store defaultCfg env0
        (handle_store defaultCfg env0 w0 argsStoreHello).2.1 argsStoreHello).2.2).countP
      isCreateCall = 0 ∧
    (handle_store defaultCfg env0
        (handle_store defaultCfg env0 w0 argsStoreHello).2.1 argsStoreHello).1 =
      "Successfully stored content with ID: " ++ env0.freshIds 0 ++
        " in collection: " ++ argsStoreHello.collection.getD defaultCfg.collection_name ∧
    (handle_create_collection defaultCfg env0 w0 argsCreateNew).1 =
      "Successfully created collection \x27new_collection\x27 with vector size " ++
        toString (argsCreateNew.vector_size.getD defaultCfg.vector_size) ∧
    (handle_create_collection defaultCfg env0
        (handle_create_collection defaultCfg env0 w0 argsCreateNew).2.1
        argsCreateNew).1 =
      "Failed to create collection: " ++ env0.collectionExistsMsg :=
  claim_C5 defaultCfg env0 w0 argsStoreHello argsCreateNew (by rfl) (by decide)
    (by rfl) (by rfl) (by decide) (by rfl) (by decide) (by decide)

/-- C6, code behavior at the failing input: a JSON-RPC request with no `id`
(a notification) is NOT answered with an empty body — the server emits a
-32601 "Method not found" JSON-RPC error body for
`notifications/initialized`. -/
theorem claim_C6_code :
    handle_mcp_request defaultCfg env0 w0 (some rpcNotification) =
      (RpcBody.rpcError (-32601) "Method not found: notifications/initialized" none,
       w0, []) := by
  rfl

/-- C7, code behavior at the failing input: the server never inspects the
`jsonrpc` member — an `initialize` request is processed identically whether
`jsonrpc` is missing or invalid, returning a success result instead of the
-32600 invalid-request error. -/
theorem claim_C7_code (j : Option String) :
    handle_mcp_request defaultCfg env0 w0 (some (rpcInitialize j)) =
      (RpcBody.result (RpcResult.initialized "2024-11-05" "qdrant-mcp" "1.0.0")
        (some (RpcId.str "8")), w0, []) := by
  rfl

/-- C8, code behavior at the failing input: a REST upsert whose point id
"invalid-id-format" is not a UUID is not rejected — the id is passed through
to the store adapter unchanged and the call reports success. -/
theorem claim_C8_code :
    upsert_vectors env0 w0 reqBadId =
      (Except.ok ⟨"success", 1, ["invalid-id-format"]⟩,
       ⟨[], [("claude_vectors", ⟨"invalid-id-format", some [0],
          [("content", Val.str "Test content"), ("tokens", Val.int 12)]⟩)]⟩,
       [AdapterCall.embed "Test content",
        AdapterCall.upsert "claude_vectors"
          [⟨"invalid-id-format", some [0],
            [("content", Val.str "Test content"), ("tokens", Val.int 12)]⟩]]) := by
  rfl

/-- C9: the REST batch upsert is atomic — the trace contains at most one
store write; on any failure nothing is written; on success the stored point
count grows by exactly the batch size; and when embedding fails the store
adapter receives no write call at all. -/
theorem claim_C9 (env : Env) (w : World) (req : VectorUpsertRequest) :
    ((upsert_vectors env w req).2.2).countP isUpsertCall ≤ 1 ∧
    (∀ err, (upsert_vectors env w req).1 = Except.error err →
      ((upsert_vectors env w req).2.1).stored = w.stored) ∧
    (∀ resp, (upsert_vectors env w req).1 = Except.ok resp →
      ((upsert_vectors env w req).2.1).stored.length =
        w.stored.length + req.points.length) ∧
    (∀ e tr, buildPoints env 0 req.points = (Except.error e, tr) →
      ((upsert_vectors env w req).2.2).countP isUpsertCall = 0) := by
  rcases hb : buildPoints env 0 req.points with ⟨e, tr⟩
  have hnu := buildPoints_no_upsert env req.points 0
  rw [hb] at hnu
  simp only at hnu
  cases e with
  | error msg =>
      refine ⟨?_, ?_, ?_, ?_⟩
      · simp [upsert_vectors, hb, hnu]
      · intro err _; simp [upsert_vectors, hb]
      · intro resp hresp; simp [upsert_vectors, hb] at hresp
      · intro e2 tr2 _; simp [upsert_vectors, hb, hnu]
  | ok qs =>
      have hlen := buildPoints_ok_length env req.points 0 qs tr hb
      cases hu : env.upsertFails
      · refine ⟨?_, ?_, ?_, ?_⟩
        · simp [upsert_vectors, hb, hu, List.countP_append, hnu, isUpsertCall]
        · intro err herr; simp [upsert_vectors, hb, hu] at herr
        · intro resp _
          simp [upsert_vectors, hb, hu, hlen]
        · intro e2 tr2 h2; simp at h2
      · refine ⟨?_, ?_, ?_, ?_⟩
        · simp [upsert_vectors, hb, hu, List.countP_append, hnu, isUpsertCall]
        · intro err _; simp [upsert_vectors, hb, hu]
        · intro resp hresp; simp [upsert_vectors, hb, hu] at hresp
        · intro e2 tr2 h2; simp at h2

/-- Witness for C9: with a failing store write, the batch reports an error
and nothing is written. -/
theorem claim_C9_witness :
    ((upsert_vectors envUpsertFail w0 reqBadId).2.1).stored = w0.stored :=
  (claim_C9 envUpsertFail w0 reqBadId).2.1
    (500, "Failed to upsert vectors: " ++ envUpsertFail.storeErrMsg) (by rfl)

/-- C10: on the MCP store path, when the metadata mapping itself binds
"content", the payload written to the store carries the metadata's value for
"content", not the embedded text (the payload is
`{"content": content, **metadata}`, metadata last). -/
theorem claim_C10 (cfg : Cfg) (env : Env) (w : World) (args : ToolArgs)
    {content : String} {metadata : Dict} {vec : Vec} {v : Val}
    (hc : args.content.getD "" = content) (hne : content ≠ "")
    (hm : args.metadata.getD [] = metadata)
    (hnd : (metadata.map Prod.fst).Nodup)
    (hv : ("content", v) ∈ metadata)
    (hembed : env.embedFn content = some vec)
    (hup : env.upsertFails = false) :
    ((handle_store cfg env w args).2.1).stored =
      w.stored ++ [(args.collection.getD cfg.collection_name,
        ⟨env.freshIds 0, some vec, mcpStorePayload content metadata⟩)] ∧
    dictGet (mcpStorePayload content metadata) "content" = some v := by
  constructor
  · by_cases hcoll : args.collection.getD cfg.collection_name ∈ w.collections
    · rw [handle_store_existing cfg env w args hc hne hembed hup hcoll, hm]
    · rw [handle_store_new cfg env w args hc hne hembed hup hcoll, hm]
  · exact dictGet_setAll_mem metadata _ "content" v hnd hv

/-- Witness for C10: metadata `{"content": "meta", "source": "test"}` wins
over the embedded text "hi". -/
theorem claim_C10_witness :
    ((handle_store defaultCfg env0 w0 argsStoreContentMeta).2.1).stored =
      w0.stored ++ [(argsStoreContentMeta.collection.getD defaultCfg.collection_name,
        ⟨env0.freshIds 0, some [0],
         mcpStorePayload "hi" [("content", Val.str "meta"), ("source", Val.str "test")]⟩)] ∧
    dictGet (mcpStorePayload "hi"
        [("content", Val.str "meta"), ("source", Val.str "test")]) "content" =
      some (Val.str "meta") :=
  claim_C10 defaultCfg env0 w0 argsStoreContentMeta (by rfl) (by decide) (by rfl)
    (by decide) (by decide) (by rfl) (by rfl)

end QdrantMcp
